import Mathlib

/-!
Verification of the Dash-Stats synchronization engine (server/dashService.ts).

The relevant parts of the service are shallowly embedded as pure Lean
functions: the database tables become lists of rows, the process-wide
mutable caches become explicit state values, and every fallible external
call (HTTP fetch, RPC call, JSON parse) becomes an Except- or
Option-valued input describing that call's outcome.  JavaScript numbers
holding integral quantities (heights, timestamps, counters) are modelled
as Nat or Int; the fee and subsidy amounts, which the source manipulates
with exact small-denominator arithmetic, are modelled as rationals.
-/

/-! ## Constants (dashService.ts lines 9-19, 370-384, 492-495) -/

def JAN_1_2026_UNIX : Int := 1767225600

def reductionInterval : Nat := 210240

def superblockCycle : Nat := 16616

def MN_COUNT_CACHE_MS : Int := 300000

/-! ## Block data model -/

/-- Normalized per-block payload produced by the block fetchers
(interface BlockData in dashService.ts). -/
structure BlockData where
  hash : String
  height : Nat
  time : Int
  txCount : Nat
  totalFees : Rat
  subsidy : Rat
deriving DecidableEq

/-- Row shape of the core_block_fees table (shared/schema.ts), as produced
by blockDataToRow. -/
structure BlockRow where
  hash : String
  height : Nat
  time : Int
  totalFees : Rat
  reward : Rat
  txCount : Nat
deriving DecidableEq

/-- isSuperblock (dashService.ts lines 381-384): height is a multiple of
the superblock cycle constant. -/
def isSuperblock (height : Nat) : Bool :=
  height % superblockCycle == 0

/-- blockDataToRow (dashService.ts lines 386-396): superblock fees are
forced to 0; reward is subsidy plus (possibly suppressed) fees. -/
def blockDataToRow (b : BlockData) : BlockRow :=
  let fees := if isSuperblock b.height then 0 else b.totalFees
  { hash := b.hash
    height := b.height
    time := b.time
    totalFees := fees
    reward := b.subsidy + fees
    txCount := b.txCount }

/-- The reduction loop of getBlockSubsidy: starting from the base value 5,
each step replaces the subsidy s by s - s/14. -/
def subsidyReduce : Nat → Rat
  | 0 => 5
  | n + 1 => subsidyReduce n - subsidyReduce n / 14

/-- getBlockSubsidy (dashService.ts lines 370-379): apply one reduction
per completed reduction interval below the given height. -/
def getBlockSubsidy (height : Nat) : Rat :=
  subsidyReduce (height / reductionInterval)

/-! ## Cache store: conflict-safe block insert -/

/-- insertBlockRow (dashService.ts lines 398-405).  The core_block_fees
table is a list of rows keyed by the hash primary key; the drizzle call
insert(...).values(row).onConflictDoNothing() leaves the table unchanged
when a row with the same hash exists and appends the row otherwise, and
does not throw on a conflict, so the function returns true on both paths
(the catch branch returning false fires only on a database error, which
the pure model has no analogue of). -/
def insertBlockRow (tbl : List BlockRow) (row : BlockRow) : Bool × List BlockRow :=
  if tbl.any (fun r => r.hash == row.hash) then
    (true, tbl)
  else
    (true, tbl ++ [row])

/-! ## Source selector (dashService.ts lines 87-110) -/

/-- JavaScript truthiness test applied to the rpcAvailable variable,
which holds true, false or null (modelled as Option Bool, none = null). -/
def jsFalsy (v : Option Bool) : Bool :=
  match v with
  | some b => !b
  | none => true

/-- One firing of the 5-minute invalidation interval
(dashService.ts lines 106-110): if (!rpcAvailable) rpcAvailable = null. -/
def rpcInvalidateStep (v : Option Bool) : Option Bool :=
  if jsFalsy v then none else v

/-- checkRpcAvailability (dashService.ts lines 87-104), as a function of
the cached verdict, whether RPC credentials are configured, and the
outcome of the liveness probe (true = the getblockcount call succeeded).
Returns the boolean handed to the caller and the new cached verdict. -/
def checkRpcAvailability (cached : Option Bool) (configured probeOk : Bool) :
    Bool × Option Bool :=
  match cached with
  | some v => (v, some v)
  | none =>
    if !configured then (false, some false)
    else (probeOk, some probeOk)

/-! ## Forward sync (syncNewCoreBlocks, dashService.ts lines 407-449) -/

/-- The number of heights syncNewCoreBlocks decides to fetch
(line 418): highestCached is truthy exactly when it is nonzero. -/
def syncToFetch (highestCached currentHeight : Nat) : Nat :=
  if highestCached ≠ 0 then min (currentHeight - highestCached) 50 else 20

/-- The list of heights syncNewCoreBlocks requests, in request order
(lines 416-429): nothing when the cache is nonempty and the chain tip is
not ahead of it; otherwise the heights startHeight - j for j below the
fetch count, independently of how they are split into batches. -/
def syncNewCoreBlocksHeights (highestCached currentHeight : Nat) : List Nat :=
  if highestCached ≠ 0 ∧ currentHeight ≤ highestCached then []
  else (List.range (syncToFetch highestCached currentHeight)).map
    (fun j => currentHeight - j)

/-! ## Backfill controller (startCoreBackfill, dashService.ts lines 451-553) -/

/-- Source-dependent batch size (line 493). -/
def backfillBatchSize (useRpc : Bool) : Nat :=
  if useRpc then 20 else 2

/-- Source-dependent inter-batch delay in milliseconds (line 494). -/
def backfillDelayMs (useRpc : Bool) : Nat :=
  if useRpc then 50 else 2000

/-- Source-dependent base backoff in milliseconds (line 495). -/
def backfillErrorBackoff (useRpc : Bool) : Nat :=
  if useRpc then 2000 else 15000

/-- The heights requested by one backfill batch at cursor position cur
(lines 500-503): cur - i for i below the batch size, stopping at the
target height. -/
def backfillBatchHeights (B : Nat) (target cur : Int) : List Int :=
  (List.range B).filterMap
    (fun i => if target ≤ cur - (i : Int) then some (cur - (i : Int)) else none)

/-- Process-local loop state of the backfill walk. -/
structure BackfillState where
  currentHeight : Int
  consecutiveErrors : Nat
  totalInserted : Nat
deriving DecidableEq

/-- The tail of one backfill loop iteration (lines 520-541), after the
batch results are known: anyFailed says whether some fetch in the batch
failed, batchInserted counts the rows inserted from it.  Returns the new
loop state and the number of milliseconds the loop waits before the next
iteration.  A fully failed batch bumps the consecutive-error counter,
waits the capped exponential backoff and leaves the cursor alone; any
other batch resets the counter and advances the cursor by the full batch
size. -/
def backfillStepAfterBatch (useRpc : Bool) (st : BackfillState)
    (anyFailed : Bool) (batchInserted : Nat) : BackfillState × Nat :=
  if anyFailed && batchInserted == 0 then
    ({ st with consecutiveErrors := st.consecutiveErrors + 1 },
      backfillErrorBackoff useRpc * min (st.consecutiveErrors + 1) 6)
  else
    ({ currentHeight := st.currentHeight - (backfillBatchSize useRpc : Int)
       consecutiveErrors := 0
       totalInserted := st.totalInserted + batchInserted },
      backfillDelayMs useRpc)

/-- The backfill walk (lines 499-542) specialized to a failure-free run:
every fetch succeeds, so no iteration takes the backoff branch and the
cursor advances by the batch size every time.  Returns the final cursor
value together with the heights fetched, in fetch order.  The fuel
argument bounds the number of loop iterations; any fuel at least the
number of iterations the loop actually needs yields the exact run. -/
def backfillWalkAux (B : Nat) (target : Int) : Nat → Int → Int × List Int
  | 0, cur => (cur, [])
  | fuel + 1, cur =>
    if target ≤ cur then
      let res := backfillWalkAux B target fuel (cur - (B : Int))
      (res.1, backfillBatchHeights B target cur ++ res.2)
    else (cur, [])

/-- A failure-free backfill run (lines 488-542): the cursor starts at
oldestCached - 1 and the loop walks it down to the target. -/
def backfillRun (B : Nat) (oldestCached target : Int) (fuel : Nat) :
    Int × List Int :=
  backfillWalkAux B target fuel (oldestCached - 1)

/-- The final status written by startCoreBackfill (line 545). -/
def backfillFinalStatus (finalHeight target : Int) : String :=
  if finalHeight ≤ target then "complete" else "paused"

/-- Per-result processing of one settled backfill fetch
(lines 509-518): a rejected promise or a null value inserts nothing, a
fetched block is converted to a row and inserted only when its timestamp
is at or after the fixed historical cutoff. -/
def processBackfillFetch (r : Option BlockData) : Option BlockRow :=
  match r with
  | some b => if JAN_1_2026_UNIX ≤ b.time then some (blockDataToRow b) else none
  | none => none

/-- The rows a backfill batch submits to insertBlockRow, given the list
of settled fetch outcomes. -/
def backfillRowsToInsert (results : List (Option BlockData)) : List BlockRow :=
  results.filterMap processBackfillFetch

/-! ## Epoch sync (syncAllPlatformEpochs, dashService.ts lines 613-657) -/

/-- Row shape of the platform_epoch_fees table (shared/schema.ts). -/
structure EpochRow where
  epochNumber : Nat
  startTime : Int
  endTime : Int
  totalCollectedFees : Int
  feeMultiplier : Int
deriving DecidableEq

/-- The upsert issued for one epoch (dashService.ts lines 632-644):
insert the row, and on a conflict on the epochNumber primary key update
only the totalCollectedFees and endTime columns of the existing row. -/
def upsertPlatformEpoch (tbl : List EpochRow) (row : EpochRow) : List EpochRow :=
  if tbl.any (fun r => r.epochNumber == row.epochNumber) then
    tbl.map (fun r =>
      if r.epochNumber == row.epochNumber then
        { r with totalCollectedFees := row.totalCollectedFees
                 endTime := row.endTime }
      else r)
  else tbl ++ [row]

/-! ## Masternode counts (fetchMasternodeCounts, dashService.ts lines 187-253) -/

/-- Result shape of fetchMasternodeCounts. -/
structure MnCounts where
  totalMasternodes : Int
  evoNodes : Int
deriving DecidableEq

/-- The module-level cachedMnCounts value. -/
structure MnCached where
  total : Int
  enabled : Int
  evoTotal : Int
  evoEnabled : Int
  fetchedAt : Int
deriving DecidableEq

/-- One entry of the protx list returned by the RPC, reduced to the five
boolean tests the source applies to it (lines 220-221). -/
structure ProtxEntry where
  typeIsOne : Bool
  typeIsEvoString : Bool
  stateTypeIsOne : Bool
  stateStatusIsZero : Bool
  posePenaltyIsZero : Bool
deriving DecidableEq

/-- The per-entry test of the protx loop (lines 220-222): the entry is an
enabled EVO node. -/
def protxIsEnabledEvo (e : ProtxEntry) : Bool :=
  (e.typeIsOne || e.typeIsEvoString || e.stateTypeIsOne)
    && (e.stateStatusIsZero || e.posePenaltyIsZero)

/-- Freshness test of the cachedMnCounts value (line 191). -/
def mnCacheFresh (now : Int) (cache : Option MnCached) : Bool :=
  match cache with
  | some c => decide (now - c.fetchedAt < MN_COUNT_CACHE_MS)
  | none => false

/-- The EVO-node estimate the DashCentral branch computes (line 200):
the JavaScript expression is the float division (weighted - unique) / 3
followed by the half-up rounding of that value, which for an integer x
equals the floor of (2x + 3) / 6. -/
def dashCentralEvoCount (unique weighted : Int) : Int :=
  Int.fdiv (2 * (weighted - unique) + 3) 6

/-- The DashCentral source yielded positive unique and weighted counts
(the test on line 199). -/
def dcPositive : Except Unit (Int × Int) → Bool
  | Except.ok (u, w) => decide (0 < u) && decide (0 < w)
  | Except.error _ => false

/-- The persisted masternode_counts checkpoint parsed to positive counts
(the test on line 239): none models a missing row, an error value a JSON
parse failure. -/
def cpPositive : Option (Except Unit MnCounts) → Bool
  | some (Except.ok p) => decide (0 < p.evoNodes) && decide (0 < p.totalMasternodes)
  | _ => false

/-- The persisted-checkpoint stage of fetchMasternodeCounts
(lines 235-252): a present, parsable checkpoint with positive counts is
returned; everything else falls through to the hardcoded default. -/
def fetchMnCountsCheckpointStage (dbCheckpoint : Option (Except Unit MnCounts)) :
    MnCounts :=
  match dbCheckpoint with
  | some (Except.ok parsed) =>
    if 0 < parsed.evoNodes ∧ 0 < parsed.totalMasternodes then parsed
    else { totalMasternodes := 3700, evoNodes := 334 }
  | _ => { totalMasternodes := 3700, evoNodes := 334 }

/-- The RPC stage of fetchMasternodeCounts (lines 209-233): if the RPC
source is available and both the masternode-count call (yielding the
total and enabled counts after the source's defaulting chain) and the
protx-list call succeed, the enabled count and the number of enabled EVO
entries are returned — with no positivity check; a protx result that is
not an array (modelled as none) merely leaves the EVO count at zero.  An
unavailable source or a throwing call falls through to the checkpoint
stage. -/
def fetchMnCountsRpcStage (rpcAvail : Bool)
    (rpcCount : Except Unit (Int × Int))
    (rpcProtx : Except Unit (Option (List ProtxEntry)))
    (dbCheckpoint : Option (Except Unit MnCounts)) : MnCounts :=
  if rpcAvail then
    match rpcCount, rpcProtx with
    | Except.ok (_, enabled), Except.ok protxOpt =>
      let evoEnabled : Int :=
        match protxOpt with
        | some entries => ((entries.filter protxIsEnabledEvo).length : Int)
        | none => 0
      { totalMasternodes := enabled, evoNodes := evoEnabled }
    | _, _ => fetchMnCountsCheckpointStage dbCheckpoint
  else fetchMnCountsCheckpointStage dbCheckpoint

/-- fetchMasternodeCounts below the in-memory cache (lines 195-252):
the DashCentral branch returns when both counts are positive, otherwise
the RPC stage runs. -/
def fetchMasternodeCountsUncached (dc : Except Unit (Int × Int))
    (rpcAvail : Bool) (rpcCount : Except Unit (Int × Int))
    (rpcProtx : Except Unit (Option (List ProtxEntry)))
    (dbCheckpoint : Option (Except Unit MnCounts)) : MnCounts :=
  match dc with
  | Except.ok (unique, weighted) =>
    if 0 < unique ∧ 0 < weighted then
      { totalMasternodes := unique
        evoNodes := dashCentralEvoCount unique weighted }
    else fetchMnCountsRpcStage rpcAvail rpcCount rpcProtx dbCheckpoint
  | Except.error _ => fetchMnCountsRpcStage rpcAvail rpcCount rpcProtx dbCheckpoint

/-- fetchMasternodeCounts (dashService.ts lines 190-253) as a function of
the outcomes of all the calls it can make.  Every external call is a
parameter describing that call's result, so totality of this definition
is the never-throws contract of the source function, whose every fallible
step sits inside a try/catch. -/
def fetchMasternodeCounts (now : Int) (cache : Option MnCached)
    (dc : Except Unit (Int × Int)) (rpcAvail : Bool)
    (rpcCount : Except Unit (Int × Int))
    (rpcProtx : Except Unit (Option (List ProtxEntry)))
    (dbCheckpoint : Option (Except Unit MnCounts)) : MnCounts :=
  match cache with
  | some c =>
    if now - c.fetchedAt < MN_COUNT_CACHE_MS then
      { totalMasternodes := c.enabled, evoNodes := c.evoEnabled }
    else fetchMasternodeCountsUncached dc rpcAvail rpcCount rpcProtx dbCheckpoint
  | none => fetchMasternodeCountsUncached dc rpcAvail rpcCount rpcProtx dbCheckpoint

/-!
## Theorems

Each claim of the specification is settled by one theorem below, with a
closed counterexample where the claim as stated fails on the code.
-/

/-- C1 (counterexample): inserting a block row whose hash is already in
the table returns true, not the false the claim requires for a
duplicate. -/
theorem insertBlockRow_duplicate_counterexample :
    ¬ ((insertBlockRow
        [{ hash := "a", height := 1, time := 0, totalFees := 0, reward := 5, txCount := 1 }]
        { hash := "a", height := 1, time := 0, totalFees := 0, reward := 5, txCount := 1 }).1
      = false) := by
  decide

/-- C1 (amended): insertBlockRow returns true whether or not the hash was
already present (false is reserved for a database error), and after the
call the table holds exactly one row with the inserted hash whenever it
held at most one before — a duplicate leaves the table unchanged, a new
hash appends one row. -/
theorem insertBlockRow_idempotent (tbl : List BlockRow) (row : BlockRow) :
    (insertBlockRow tbl row).1 = true ∧
    ((insertBlockRow tbl row).2.filter (fun r => r.hash == row.hash)).length
      = max (tbl.filter (fun r => r.hash == row.hash)).length 1 := by
  unfold insertBlockRow
  by_cases h : tbl.any (fun r => r.hash == row.hash)
  · obtain ⟨x, hx, hfx⟩ := List.any_eq_true.mp h
    have hmem : x ∈ tbl.filter (fun r => r.hash == row.hash) :=
      List.mem_filter.mpr ⟨hx, hfx⟩
    have hpos : 0 < (tbl.filter (fun r => r.hash == row.hash)).length :=
      List.length_pos_of_mem hmem
    refine ⟨by simp [h], ?_⟩
    simp only [h, if_true]
    omega
  · have hnil : tbl.filter (fun r => r.hash == row.hash) = [] := by
      rw [List.filter_eq_nil_iff]
      intro a ha
      have h2 := (List.any_eq_true).not.mp h
      push_neg at h2
      simpa using h2 a ha
    refine ⟨by simp [h], ?_⟩
    simp only [h, if_false, Bool.false_eq_true]
    rw [List.filter_append, hnil]
    simp

/-- C2 (counterexample): the 5-minute invalidation step leaves a cached
true verdict in place instead of resetting it to unknown. -/
theorem rpcInvalidateStep_true_counterexample :
    ¬ (rpcInvalidateStep (some true) = none) := by
  decide

/-- C2 (amended): the periodic invalidation resets a cached false verdict
and an unknown verdict to unknown, so the next availability check
re-probes (its result is the probe outcome when credentials are
configured), but it keeps a cached true verdict, and the next check then
returns true without probing, whatever the probe would have said. -/
theorem rpcInvalidateStep_spec (configured probeOk : Bool) :
    rpcInvalidateStep (some false) = none ∧
    rpcInvalidateStep none = none ∧
    rpcInvalidateStep (some true) = some true ∧
    (checkRpcAvailability (rpcInvalidateStep (some false)) true probeOk).1 = probeOk ∧
    (checkRpcAvailability (rpcInvalidateStep (some true)) configured probeOk).1 = true := by
  cases configured <;> cases probeOk <;> decide

/-- C6: for every fetched block whose height is a multiple of the
superblock cycle, the row produced for storage carries totalFees exactly
0, whatever fee total the upstream source reported. -/
theorem blockDataToRow_superblock_fees (b : BlockData)
    (hsb : b.height % superblockCycle = 0) :
    (blockDataToRow b).totalFees = 0 := by
  unfold blockDataToRow
  simp [isSuperblock, hsb]

/-- C6 (witness): a superblock-height block with a nonzero upstream fee
total is stored with zero fees. -/
theorem blockDataToRow_superblock_fees_witness :
    (blockDataToRow
      { hash := "h", height := 16616, time := 1767230000, txCount := 3,
        totalFees := 7, subsidy := 5 }).totalFees = 0 :=
  blockDataToRow_superblock_fees _ (by decide)

/-- C3 (counterexample): with an empty cache (cached maximum 0) and a
chain tip of 30, forward sync requests 20 heights, not the
min(currentHeight - cachedMax, 50) = 30 the claim demands. -/
theorem syncNewCoreBlocks_empty_cache_counterexample :
    ¬ ((syncNewCoreBlocksHeights 0 30).length = min (30 - 0) 50) := by
  decide

/-- C3 (amended): when the cache is nonempty (cached maximum positive)
and the chain tip exceeds it, forward sync requests exactly
min(currentHeight - cachedMax, 50) heights, namely the most-recent
missing ones, from currentHeight down to currentHeight - n + 1; when the
cache is empty it instead requests a fixed seed of 20 heights. -/
theorem syncNewCoreBlocks_heights_spec (h c k : Nat) (hpos : 0 < h) (hlt : h < c) :
    (syncNewCoreBlocksHeights h c).length = min (c - h) 50 ∧
    (k ∈ syncNewCoreBlocksHeights h c ↔ c + 1 - min (c - h) 50 ≤ k ∧ k ≤ c) ∧
    (syncNewCoreBlocksHeights 0 c).length = 20 := by
  have hcond : ¬ (h ≠ 0 ∧ c ≤ h) := by omega
  have hfetch : syncToFetch h c = min (c - h) 50 := by
    unfold syncToFetch
    rw [if_pos (by omega)]
  refine ⟨?_, ?_, ?_⟩
  · unfold syncNewCoreBlocksHeights
    rw [if_neg hcond, hfetch]
    simp
  · unfold syncNewCoreBlocksHeights
    rw [if_neg hcond, hfetch]
    simp only [List.mem_map, List.mem_range]
    constructor
    · rintro ⟨j, hj, rfl⟩
      omega
    · rintro ⟨hk1, hk2⟩
      exact ⟨c - k, by omega, by omega⟩
  · unfold syncNewCoreBlocksHeights syncToFetch
    simp

/-- C3 (witness): with cached maximum 10 and chain tip 100 the request
list has min(90, 50) = 50 heights, height 60 lies in it exactly when it
lies in the interval from 51 to 100, and an empty cache yields 20
requests. -/
theorem syncNewCoreBlocks_heights_spec_witness :
    (syncNewCoreBlocksHeights 10 100).length = min (100 - 10) 50 ∧
    (60 ∈ syncNewCoreBlocksHeights 10 100 ↔
      100 + 1 - min (100 - 10) 50 ≤ 60 ∧ 60 ≤ 100) ∧
    (syncNewCoreBlocksHeights 0 100).length = 20 :=
  syncNewCoreBlocks_heights_spec 10 100 60 (by decide) (by decide)

/-- C5: the block subsidy is constant within a reduction era — heights
with the same completed-reduction count get the same subsidy — and one
full reduction interval later the subsidy is exactly the 13/14 multiple
of the current one (the model computes in exact rationals, so the
floating-tolerance equality of the claim holds exactly). -/
theorem getBlockSubsidy_era_decay (h1 h2 h : Nat) (hlt : h1 < h2)
    (hera : h1 / reductionInterval = h2 / reductionInterval) :
    getBlockSubsidy h1 = getBlockSubsidy h2 ∧
    getBlockSubsidy (h + reductionInterval) = getBlockSubsidy h * (13 / 14) := by
  constructor
  · unfold getBlockSubsidy
    rw [hera]
  · unfold getBlockSubsidy
    have hdiv : (h + reductionInterval) / reductionInterval
        = h / reductionInterval + 1 :=
      Nat.add_div_right h (by norm_num [reductionInterval])
    rw [hdiv]
    show subsidyReduce (h / reductionInterval) -
        subsidyReduce (h / reductionInterval) / 14 = _
    ring

/-- C5 (witness): heights 5 and 7 share era 0 and the same subsidy, and
height 3 plus one reduction interval carries 13/14 of the subsidy at
height 3. -/
theorem getBlockSubsidy_era_decay_witness :
    getBlockSubsidy 5 = getBlockSubsidy 7 ∧
    getBlockSubsidy (3 + reductionInterval) = getBlockSubsidy 3 * (13 / 14) :=
  getBlockSubsidy_era_decay 5 7 3 (by decide) (by decide)

/-- C4 (counterexample): in the oldest-cached 150, target 100 scenario
with the RPC batch size 20 the cursor overshoots the target by a full
batch, so totalDone, computed as oldestCached - 1 minus the final cursor,
ends at 60 rather than the 50 the claim requires for every batch size. -/
theorem backfill_totalDone_counterexample :
    ¬ (150 - 1 - (backfillRun 20 150 100 30).1 = (50 : Int)) := by
  decide

/-- C4 (amended): with oldest cached height 150 and target 100 a
failure-free backfill run fetches exactly the heights 149 down to 100
(the oldest cached row itself is not re-fetched) and finishes with
status complete under both batch sizes the controller uses; totalDone
ends at 50 with the public-source batch size 2, whose batches divide the
walk evenly, but at 60 with the RPC batch size 20, because the cursor
advances by the full batch size past the target. -/
theorem backfill_scenario_spec :
    (backfillRun 2 150 100 30).2 = (List.range 50).map (fun j => (149 : Int) - j) ∧
    150 - 1 - (backfillRun 2 150 100 30).1 = (50 : Int) ∧
    backfillFinalStatus (backfillRun 2 150 100 30).1 100 = "complete" ∧
    (backfillRun 20 150 100 30).2 = (List.range 50).map (fun j => (149 : Int) - j) ∧
    150 - 1 - (backfillRun 20 150 100 30).1 = (60 : Int) ∧
    backfillFinalStatus (backfillRun 20 150 100 30).1 100 = "complete" := by
  refine ⟨by decide, by decide, ?_, by decide, by decide, ?_⟩ <;> rfl

/-- C7: a batch in which every fetch failed and nothing was inserted, the
k-th such batch in a row, makes the loop wait baseBackoff times
min(k, 6) milliseconds — base 2000 with the privileged source and 15000
with the public one — without moving the height cursor, so the next
batch covers the same height range; the waits grow strictly from one
failed batch to the next until the sixth and stay at the 6-fold cap
afterwards. -/
theorem backfill_backoff_spec (useRpc : Bool) (st : BackfillState) (k : Nat)
    (target : Int) (hk : st.consecutiveErrors + 1 = k) :
    (backfillStepAfterBatch useRpc st true 0).2
      = backfillErrorBackoff useRpc * min k 6 ∧
    (backfillStepAfterBatch useRpc st true 0).1.currentHeight = st.currentHeight ∧
    backfillBatchHeights (backfillBatchSize useRpc) target
        (backfillStepAfterBatch useRpc st true 0).1.currentHeight
      = backfillBatchHeights (backfillBatchSize useRpc) target st.currentHeight ∧
    (k < 6 →
      backfillErrorBackoff useRpc * min k 6
        < backfillErrorBackoff useRpc * min (k + 1) 6) ∧
    (6 ≤ k →
      backfillErrorBackoff useRpc * min k 6 = backfillErrorBackoff useRpc * 6) := by
  have hheight : (backfillStepAfterBatch useRpc st true 0).1.currentHeight
      = st.currentHeight := by
    unfold backfillStepAfterBatch
    simp
  refine ⟨?_, hheight, by rw [hheight], ?_, ?_⟩
  · unfold backfillStepAfterBatch
    simp [hk]
  · intro hk6
    cases useRpc <;> simp [backfillErrorBackoff] <;> omega
  · intro hk6
    cases useRpc <;> simp [backfillErrorBackoff] <;> omega

/-- C7 (witness): the first fully failed privileged-source batch at
cursor height 100 waits 2000 * min(1, 6) milliseconds, keeps the cursor
at 100 and therefore re-requests the same batch heights; the strict
growth and cap statements hold at k = 1. -/
theorem backfill_backoff_spec_witness :
    (backfillStepAfterBatch true ⟨100, 0, 0⟩ true 0).2
      = backfillErrorBackoff true * min 1 6 ∧
    (backfillStepAfterBatch true ⟨100, 0, 0⟩ true 0).1.currentHeight
      = (⟨100, 0, 0⟩ : BackfillState).currentHeight ∧
    backfillBatchHeights (backfillBatchSize true) 90
        (backfillStepAfterBatch true ⟨100, 0, 0⟩ true 0).1.currentHeight
      = backfillBatchHeights (backfillBatchSize true) 90
          (⟨100, 0, 0⟩ : BackfillState).currentHeight ∧
    (1 < 6 →
      backfillErrorBackoff true * min 1 6
        < backfillErrorBackoff true * min (1 + 1) 6) ∧
    (6 ≤ 1 →
      backfillErrorBackoff true * min 1 6 = backfillErrorBackoff true * 6) :=
  backfill_backoff_spec true ⟨100, 0, 0⟩ 1 90 (by decide)

/-- C9: every row a backfill batch submits for insertion carries a
timestamp at or after the fixed historical cutoff, and a successfully
fetched block whose timestamp is older than the cutoff produces no row
at all. -/
theorem backfill_cutoff_invariant (results : List (Option BlockData))
    (row : BlockRow) (b : BlockData)
    (hmem : row ∈ backfillRowsToInsert results)
    (hold : b.time < JAN_1_2026_UNIX) :
    JAN_1_2026_UNIX ≤ row.time ∧ processBackfillFetch (some b) = none := by
  constructor
  · unfold backfillRowsToInsert at hmem
    rw [List.mem_filterMap] at hmem
    obtain ⟨o, _, ho⟩ := hmem
    match o with
    | none => simp [processBackfillFetch] at ho
    | some b2 =>
      simp only [processBackfillFetch] at ho
      by_cases ht : JAN_1_2026_UNIX ≤ b2.time
      · rw [if_pos ht] at ho
        have hrow : row = blockDataToRow b2 :=
          ((Option.some.injEq _ _).mp ho).symm
        rw [hrow]
        exact ht
      · rw [if_neg ht] at ho
        exact absurd ho (by simp)
  · simp only [processBackfillFetch]
    rw [if_neg (not_le.mpr hold)]

/-- C9 (witness): from a settled batch holding one block at the cutoff,
one block before it and one failed fetch, only the first block's row is
submitted and its timestamp meets the cutoff, while the too-old block
produces no row. -/
theorem backfill_cutoff_invariant_witness :
    JAN_1_2026_UNIX ≤ (blockDataToRow
      { hash := "new", height := 120, time := 1767225600, txCount := 2,
        totalFees := 1, subsidy := 5 }).time ∧
    processBackfillFetch (some
      { hash := "old", height := 119, time := 1767225599, txCount := 2,
        totalFees := 1, subsidy := 5 }) = none :=
  backfill_cutoff_invariant
    [some { hash := "new", height := 120, time := 1767225600, txCount := 2,
            totalFees := 1, subsidy := 5 },
     some { hash := "old", height := 119, time := 1767225599, txCount := 2,
            totalFees := 1, subsidy := 5 },
     none]
    (blockDataToRow
      { hash := "new", height := 120, time := 1767225600, txCount := 2,
        totalFees := 1, subsidy := 5 })
    { hash := "old", height := 119, time := 1767225599, txCount := 2,
      totalFees := 1, subsidy := 5 }
    (by
      refine List.mem_filterMap.mpr ⟨_, List.mem_cons_self _ _, ?_⟩
      simp only [processBackfillFetch]
      rw [if_pos (by decide)])
    (by decide)

/-- C8: upserting an epoch number that is already stored rewrites the
stored row with the newly fetched totalCollectedFees and endTime while
keeping the old startTime and feeMultiplier — the updated row, old in
every field except those two, is in the table afterwards — and the
table keeps its size, so no second row for the epoch appears. -/
theorem upsertPlatformEpoch_spec (tbl : List EpochRow) (old r : EpochRow)
    (hmem : old ∈ tbl) (hnum : old.epochNumber = r.epochNumber) :
    { old with totalCollectedFees := r.totalCollectedFees
               endTime := r.endTime } ∈ upsertPlatformEpoch tbl r ∧
    (upsertPlatformEpoch tbl r).length = tbl.length := by
  have hany : tbl.any (fun x => x.epochNumber == r.epochNumber) = true :=
    List.any_eq_true.mpr ⟨old, hmem, by simp [hnum]⟩
  unfold upsertPlatformEpoch
  rw [if_pos hany]
  constructor
  · refine List.mem_map.mpr ⟨old, hmem, ?_⟩
    rw [if_pos (by simp [hnum])]
  · exact List.length_map tbl _

/-- C8 (witness): re-syncing epoch 5, first stored with fee total 100,
with a fetched record carrying fee total 250 and a new end time leaves a
row holding the larger total 250 and end time 30 but the original start
time 10 and multiplier 1, and the table still has one row. -/
theorem upsertPlatformEpoch_spec_witness :
    ({ epochNumber := 5, startTime := 10, endTime := 30,
       totalCollectedFees := 250, feeMultiplier := 1 } : EpochRow) ∈
      upsertPlatformEpoch
        [{ epochNumber := 5, startTime := 10, endTime := 20,
           totalCollectedFees := 100, feeMultiplier := 1 }]
        { epochNumber := 5, startTime := 999, endTime := 30,
          totalCollectedFees := 250, feeMultiplier := 2 } ∧
    (upsertPlatformEpoch
        [{ epochNumber := 5, startTime := 10, endTime := 20,
           totalCollectedFees := 100, feeMultiplier := 1 }]
        { epochNumber := 5, startTime := 999, endTime := 30,
          totalCollectedFees := 250, feeMultiplier := 2 }).length
      = [({ epochNumber := 5, startTime := 10, endTime := 20,
            totalCollectedFees := 100, feeMultiplier := 1 } : EpochRow)].length :=
  upsertPlatformEpoch_spec
    [{ epochNumber := 5, startTime := 10, endTime := 20,
       totalCollectedFees := 100, feeMultiplier := 1 }]
    { epochNumber := 5, startTime := 10, endTime := 20,
      totalCollectedFees := 100, feeMultiplier := 1 }
    { epochNumber := 5, startTime := 999, endTime := 30,
      totalCollectedFees := 250, feeMultiplier := 2 }
    (List.mem_singleton.mpr rfl) rfl

/-- C10 (counterexample): with the DashCentral call failing, the RPC
source available but answering both calls with zero counts and an empty
protx list, and no persisted checkpoint — every source failing to yield
positive counts — fetchMasternodeCounts returns the zero counts from the
RPC answer, not the hardcoded default the claim requires. -/
theorem fetchMasternodeCounts_zero_rpc_counterexample :
    ¬ (fetchMasternodeCounts 0 none (Except.error ()) true (Except.ok (0, 0))
        (Except.ok (some [])) none
      = { totalMasternodes := 3700, evoNodes := 334 }) := by
  decide

/-- C10 (amended): fetchMasternodeCounts never throws — its embedding is
total in the outcomes of every call it makes — and it returns the
hardcoded default of 3700 masternodes and 334 EVO nodes whenever the
in-memory cache is stale or empty, the DashCentral call fails or yields
non-positive counts, the RPC path is unavailable or one of its two calls
throws, and the persisted checkpoint is absent, unparsable or
non-positive; a successful pair of RPC calls, however, has its counts
returned as-is even when they are zero. -/
theorem fetchMasternodeCounts_default_spec (now : Int) (cache : Option MnCached)
    (dc : Except Unit (Int × Int)) (rpcAvail : Bool)
    (rpcCount : Except Unit (Int × Int))
    (rpcProtx : Except Unit (Option (List ProtxEntry)))
    (dbCheckpoint : Option (Except Unit MnCounts))
    (hcache : mnCacheFresh now cache = false)
    (hdc : dcPositive dc = false)
    (hrpc : rpcAvail = false ∨ rpcCount = Except.error () ∨ rpcProtx = Except.error ())
    (hdb : cpPositive dbCheckpoint = false) :
    fetchMasternodeCounts now cache dc rpcAvail rpcCount rpcProtx dbCheckpoint
      = { totalMasternodes := 3700, evoNodes := 334 } := by
  have hcp : fetchMnCountsCheckpointStage dbCheckpoint
      = { totalMasternodes := 3700, evoNodes := 334 } := by
    match dbCheckpoint with
    | none => rfl
    | some (Except.error e) => rfl
    | some (Except.ok p) =>
      simp only [cpPositive, Bool.and_eq_false_iff, decide_eq_false_iff_not] at hdb
      simp only [fetchMnCountsCheckpointStage]
      rw [if_neg (not_and_or.mpr hdb)]
  have hstage : fetchMnCountsRpcStage rpcAvail rpcCount rpcProtx dbCheckpoint
      = { totalMasternodes := 3700, evoNodes := 334 } := by
    rcases hrpc with h | h | h
    · rw [h]
      unfold fetchMnCountsRpcStage
      rw [if_neg (by simp)]
      exact hcp
    · unfold fetchMnCountsRpcStage
      rw [h]
      cases rpcAvail
      · exact hcp
      · rw [if_pos rfl]
        cases rpcProtx <;> exact hcp
    · unfold fetchMnCountsRpcStage
      rw [h]
      cases rpcAvail
      · exact hcp
      · rw [if_pos rfl]
        match rpcCount with
        | Except.error _ => exact hcp
        | Except.ok (t, e) => exact hcp
  have huncached : fetchMasternodeCountsUncached dc rpcAvail rpcCount rpcProtx
      dbCheckpoint = { totalMasternodes := 3700, evoNodes := 334 } := by
    match dc with
    | Except.error e => exact hstage
    | Except.ok (u, w) =>
      simp only [dcPositive, Bool.and_eq_false_iff, decide_eq_false_iff_not] at hdc
      simp only [fetchMasternodeCountsUncached]
      rw [if_neg (not_and_or.mpr hdc)]
      exact hstage
  match cache with
  | none => exact huncached
  | some c =>
    simp only [mnCacheFresh, decide_eq_false_iff_not] at hcache
    simp only [fetchMasternodeCounts]
    rw [if_neg hcache]
    exact huncached

/-- C10 (witness): with no cache, a failed DashCentral call, the RPC
source unavailable and no checkpoint row, fetchMasternodeCounts returns
the hardcoded default counts. -/
theorem fetchMasternodeCounts_default_spec_witness :
    fetchMasternodeCounts 0 none (Except.error ()) false (Except.error ())
      (Except.error ()) none
    = { totalMasternodes := 3700, evoNodes := 334 } :=
  fetchMasternodeCounts_default_spec 0 none (Except.error ()) false
    (Except.error ()) (Except.error ()) none rfl rfl (Or.inl rfl) rfl
